import Mathlib

/-!
Shallow embedding of the synthgen consumer (src/consumer/src): the JSON value
model, the task status and response records, the store adapter (db.rs), the
retrying HTTP caller (llm_wrapper.rs), the per-message processor and the
bounded dispatcher (main.rs), with theorems checking the specification claims
against these definitions.
-/

/-- A model of serde_json::Value: the dynamic JSON trees the consumer routes on. -/
inductive Json where
  | null : Json
  | bool (b : Bool) : Json
  | num (n : Int) : Json
  | str (s : String) : Json
  | arr (elems : List Json) : Json
  | obj (fields : List (String × Json)) : Json
deriving Repr

mutual

/-- Structural equality on JSON values, mirroring serde_json Value equality. -/
def Json.beq : Json → Json → Bool
  | .null, .null => true
  | .bool a, .bool b => a == b
  | .num a, .num b => a == b
  | .str a, .str b => a == b
  | .arr xs, .arr ys => Json.beqList xs ys
  | .obj xs, .obj ys => Json.beqFields xs ys
  | _, _ => false

/-- Elementwise equality of JSON arrays. -/
def Json.beqList : List Json → List Json → Bool
  | [], [] => true
  | x :: xs, y :: ys => Json.beq x y && Json.beqList xs ys
  | _, _ => false

/-- Elementwise equality of JSON object field lists. -/
def Json.beqFields : List (String × Json) → List (String × Json) → Bool
  | [], [] => true
  | (k1, v1) :: xs, (k2, v2) :: ys => k1 == k2 && Json.beq v1 v2 && Json.beqFields xs ys
  | _, _ => false

end

/-- A model of Value::get(key): field lookup on objects, None on any other shape. -/
def Json.getField : Json → String → Option Json
  | .obj fields, key =>
      match fields.find? (fun p => p.1 == key) with
      | some p => some p.2
      | none => none
  | _, _ => none

/-- A model of Value::as_str. -/
def Json.asStr : Json → Option String
  | .str s => some s
  | _ => none

/-- A model of Value::as_u64: only non-negative integral numbers qualify. -/
def Json.asNat : Json → Option Nat
  | .num n => if 0 ≤ n then some n.toNat else none
  | _ => none

/-- Task lifecycle states from schemas/task_status.rs. -/
inductive TaskStatus where
  | pending
  | processing
  | completed
  | failed
deriving DecidableEq, Repr

/-- Textual spelling of each status, from TaskStatus::as_str. -/
def TaskStatus.as_str : TaskStatus → String
  | .pending => "PENDING"
  | .processing => "PROCESSING"
  | .completed => "COMPLETED"
  | .failed => "FAILED"

/-- Token usage counters from schemas/llm_response.rs. -/
structure Usage where
  prompt_tokens : Nat
  completion_tokens : Nat
  total_tokens : Nat
deriving DecidableEq, Repr

/-- The response shape the store adapter in db.rs reads and constructs: the
content string, usage counters and cached flag (db.rs never touches an
attempt field; the source tree is version-skewed, schemas/llm_response.rs
declares an extra attempt field that db.rs does not populate). -/
structure LLMResponseDb where
  content : String
  usage : Usage
  cached : Bool
deriving DecidableEq, Repr

/-- The response shape constructed by llm_wrapper.rs and handled by main.rs:
an opaque completions tree, the cached flag and the zero-based attempt index. -/
structure LLMResponse where
  completions : Json
  cached : Bool
  attempt : Nat

/-- A row of the events table, with the columns the consumer reads or writes
(db.rs). The body column is the request body the cache query filters on; the
body_hash column comes from the specification data model (Modelled from the
spec: the fingerprint string; the SQL variant under src/ keys its cache query
on the body column instead). -/
structure EventRow where
  message_id : String
  status : String
  body : Json
  body_hash : String
  result : Json
  started_at : Int
  completed_at : Int
  duration : Int
  prompt_tokens : Int
  completion_tokens : Int
  total_tokens : Int
  cached : Bool

/-- Store update from db.rs update_event_status: the function branches on the
status argument. PROCESSING sets started_at and status only; COMPLETED and
FAILED set completed_at, status, duration, result (a one-field object holding
the content string under the key completion), the three token counters and
cached; any other status (PENDING) performs no write. The now argument stands
for Utc::now() taken at the start of the call; duration is now minus
started_at in milliseconds. -/
def update_event_status (store : List EventRow) (message_id : String)
    (status : TaskStatus) (llm_response : LLMResponseDb)
    (started_at now : Int) : List EventRow :=
  let duration := now - started_at
  if status = TaskStatus.processing then
    store.map fun r =>
      if r.message_id == message_id then
        { r with started_at := started_at, status := TaskStatus.processing.as_str }
      else r
  else if status = TaskStatus.completed ∨ status = TaskStatus.failed then
    store.map fun r =>
      if r.message_id == message_id then
        { r with
            completed_at := now,
            status := status.as_str,
            duration := duration,
            result := Json.obj [("completion", Json.str llm_response.content)],
            prompt_tokens := (llm_response.usage.prompt_tokens : Int),
            completion_tokens := (llm_response.usage.completion_tokens : Int),
            total_tokens := (llm_response.usage.total_tokens : Int),
            cached := llm_response.cached }
      else r
  else store

/-- Cache lookup from db.rs get_cached_completion: the first row whose status
is COMPLETED and whose body column equals the given body (the SQL has LIMIT 1
and no ORDER BY; list order models the unspecified ordering). On a hit the
adapter projects the completion string out of the stored result, defaulting to
the empty string, and synthesizes a response with zeroed usage and cached set
to true. A miss is the empty option. -/
def get_cached_completion (store : List EventRow) (body : Json) : Option LLMResponseDb :=
  match store.find? (fun r => r.status == "COMPLETED" && Json.beq r.body body) with
  | some row =>
      some { content := (((row.result).getField "completion").bind Json.asStr).getD ""
             usage := { prompt_tokens := 0, completion_tokens := 0, total_tokens := 0 }
             cached := true }
  | none => none

/-- Modelled from the spec: the cache lookup as section 4.B words it, absent
from src/ in that form. It keys on the body_hash fingerprint column, projects
only the completions subtree of the stored result, and synthesizes a Response
with cached true and attempt 0. -/
def get_cached_completion_spec (store : List EventRow) (body_hash : String) :
    Option LLMResponse :=
  match store.find? (fun r => r.status == "COMPLETED" && r.body_hash == body_hash) with
  | some row =>
      some { completions := ((row.result).getField "completions").getD Json.null
             cached := true
             attempt := 0 }
  | none => none

/-- Outcome of one HTTP exchange as llm_wrapper.rs observes it: a send error
(reqwest distinguishes timeout, connect and other errors) or a response with
its status code, headers, text body and the result of parsing the body as
JSON (none models an unparseable body). -/
inductive HttpResult where
  | timeoutErr (msg : String)
  | connectErr (msg : String)
  | otherSendErr (msg : String)
  | response (status : Nat) (headers : List (String × String)) (text : String)
      (json : Option Json)

/-- Classification of one attempt: return the response, retry later (with the
backoff delay, or with an explicit hint in seconds for rate limits), or stop
with a permanent error. Mirrors RetryError of tokio_retry2 as llm_wrapper.rs
uses it. -/
inductive AttemptOutcome where
  | success (resp : LLMResponse)
  | transient (msg : String)
  | permanent (msg : String)
  | retryAfter (msg : String) (delaySecs : Nat)

/-- True for the outcomes after which the retry loop tries again. -/
def AttemptOutcome.retryable : AttemptOutcome → Bool
  | .transient _ => true
  | .retryAfter _ _ => true
  | _ => false

/-- Accumulating decimal parse over a character list; any non-digit fails. -/
def parseDigits : List Char → Nat → Option Nat
  | [], acc => some acc
  | c :: cs, acc =>
      if c.isDigit then parseDigits cs (acc * 10 + (c.toNat - 48)) else none

/-- A model of str parsing into u64 as the source uses it: a nonempty string
of decimal digits (overflow above the u64 range is not modelled; the values
of interest are small). -/
def parseNat (s : String) : Option Nat :=
  match s.data with
  | [] => none
  | cs => parseDigits cs 0

/-- Retry-After header handling from the 429 arm of llm_wrapper.rs: the first
header of that name, parsed as a non-negative integer of seconds, defaulting
to 2 when absent or unparseable. -/
def retryAfterSecs (headers : List (String × String)) : Nat :=
  ((headers.find? (fun p => p.1 == "Retry-After")).bind
    (fun p => parseNat p.2)).getD 2

/-- The X-RateLimit-Reset extraction from the body-level 429 arm of
llm_wrapper.rs: error.metadata.headers contains the reset instant as a string
of unix milliseconds. -/
def rateLimitReset (err : Json) : Option Nat :=
  (((((err.getField "metadata").bind
    (fun m => m.getField "headers")).bind
    (fun h => h.getField "X-RateLimit-Reset")).bind
    Json.asStr).bind
    parseNat)

/-- Delay in seconds computed by the body-level 429 arm: when the reset
instant parses and lies in the future, the millisecond difference to now,
integer-divided by 1000, plus one; otherwise 2. -/
def rateLimitDelaySecs (err : Json) (now_ms : Nat) : Nat :=
  match rateLimitReset err with
  | some reset => if now_ms < reset then (reset - now_ms) / 1000 + 1 else 2
  | none => 2

/-- Error object location from llm_wrapper.rs: top-level error, or else
completions.error. -/
def jsonError (j : Json) : Option Json :=
  match j.getField "error" with
  | some e => some e
  | none => (j.getField "completions").bind (fun c => c.getField "error")

/-- Message string of an embedded error object, with the given default. -/
def errMessage (err : Json) (default : String) : String :=
  ((err.getField "message").bind Json.asStr).getD default

/-- One attempt of call_llm in llm_wrapper.rs, as a function of the HTTP
exchange outcome, the zero-based attempt index and the current unix time in
milliseconds. Branch order follows the source: send errors (timeout and
connect transient, otherwise permanent), then status 401 (permanent), 429
(retry after the Retry-After hint), any other non-2xx (5xx transient, rest
permanent), then the 2xx path: JSON parse failure is permanent; an embedded
error object with numeric code 429 retries after the reset-based hint, codes
500-599 are transient, other codes permanent; an embedded error without a
numeric code, or no error object, is a success carrying the raw body, cached
false and the attempt index. Status codes render numerically in the message
strings of this model. -/
def call_llm_attempt (r : HttpResult) (k : Nat) (now_ms : Nat) : AttemptOutcome :=
  match r with
  | .timeoutErr m => .transient ("Request error (timeout): " ++ m)
  | .connectErr m => .transient ("Request error (connection): " ++ m)
  | .otherSendErr m => .permanent ("Request error (other): " ++ m)
  | .response status headers text json =>
    if status = 401 then
      .permanent ("Authentication error: " ++ text)
    else if status = 429 then
      .retryAfter "Rate limit exceeded" (retryAfterSecs headers)
    else if ¬ (200 ≤ status ∧ status < 300) then
      if 500 ≤ status ∧ status < 600 then
        .transient ("Server error (" ++ toString status ++ "): " ++ text)
      else
        .permanent ("Client error (" ++ toString status ++ "): " ++ text)
    else
      match json with
      | none => .permanent "JSON parsing error"
      | some j =>
        match jsonError j with
        | some err =>
          match (err.getField "code").bind Json.asNat with
          | some code =>
            if code = 429 then
              .retryAfter ("Rate limit exceeded: " ++ errMessage err "Rate limit exceeded")
                (rateLimitDelaySecs err now_ms)
            else if 500 ≤ code ∧ code < 600 then
              .transient ("Server error (" ++ toString code ++ "): "
                ++ errMessage err "Unknown error")
            else
              .permanent ("Client error (" ++ toString code ++ "): "
                ++ errMessage err "Unknown error")
          | none => .success { completions := j, cached := false, attempt := k }
        | none => .success { completions := j, cached := false, attempt := k }

/-- Result of a whole call: how many HTTP requests were made, the sleeps (in
milliseconds, in order) between attempts, and the final outcome. -/
structure RetryResult where
  requests : Nat
  sleeps : List Nat
  outcome : Except String LLMResponse

/-- Modelled from the spec: the retry combinator of the external tokio_retry2
crate, whose source is not under src/. Per the attempt loop of section 4.C
and the propagation rules of section 7: at most maxAttempts attempts indexed
from zero; a transient outcome sleeps the backoff delay for its attempt index
and retries while budget remains; a retry-after outcome sleeps the maximum of
the backoff delay and the hint; a permanent outcome stops at once; the final
failure surfaces as the terminal error. The backoff argument abstracts the
jittered, capped exponential delay sequence (in milliseconds) built in
llm_wrapper.rs. -/
def retryGo (backoff : Nat → Nat) (act : Nat → AttemptOutcome) :
    Nat → Nat → RetryResult
  | _, 0 => { requests := 0, sleeps := [], outcome := Except.error "no attempt budget" }
  | k, fuel + 1 =>
    match act k with
    | .success resp => { requests := 1, sleeps := [], outcome := Except.ok resp }
    | .permanent e => { requests := 1, sleeps := [], outcome := Except.error e }
    | .transient e =>
        if fuel = 0 then
          { requests := 1, sleeps := [], outcome := Except.error e }
        else
          let rest := retryGo backoff act (k + 1) fuel
          { requests := rest.requests + 1,
            sleeps := backoff k :: rest.sleeps,
            outcome := rest.outcome }
    | .retryAfter e d =>
        if fuel = 0 then
          { requests := 1, sleeps := [], outcome := Except.error e }
        else
          let rest := retryGo backoff act (k + 1) fuel
          { requests := rest.requests + 1,
            sleeps := max (backoff k) (d * 1000) :: rest.sleeps,
            outcome := rest.outcome }

/-- The retry loop started at attempt index zero with the full budget. -/
def retryLoop (maxAttempts : Nat) (backoff : Nat → Nat)
    (act : Nat → AttemptOutcome) : RetryResult :=
  retryGo backoff act 0 maxAttempts

/-- The retrying caller call_llm of llm_wrapper.rs: classify each HTTP
exchange and run the retry loop over the attempt budget. The results argument
gives the HTTP exchange outcome of each attempt index; headers sent with the
request do not influence control flow and are not modelled. -/
def call_llm (retry_attempts : Nat) (backoff : Nat → Nat) (now_ms : Nat)
    (results : Nat → HttpResult) : RetryResult :=
  retryLoop retry_attempts backoff (fun k => call_llm_attempt (results k) k now_ms)

/-- Externally visible effects of one run of process_message in main.rs: a
store update (with the status and response passed to the adapter, and whether
that write succeeded), a positive ack, or a reject with its requeue flag. -/
inductive ProcAction where
  | storeWrite (status : TaskStatus) (resp : LLMResponse) (ok : Bool)
  | ack
  | reject (requeue : Bool)

/-- The empty response main.rs constructs for the PROCESSING and FAILED
writes: null completions, cached false, attempt 0. -/
def emptyResponse : LLMResponse :=
  { completions := Json.null, cached := false, attempt := 0 }

/-- The per-message processor of main.rs as the ordered list of its
externally visible effects. The environment supplies the decode result
(parsed), whether the PROCESSING write succeeds (procOk), the cache probe
outcome (a store error, a miss, or a hit), the caller result (llm) and
whether the terminal write succeeds (termOk). Control flow follows the
source: a decode failure rejects without requeue and touches the store not at
all; a failed PROCESSING write returns without settling the delivery; a cache
hit writes COMPLETED with the cached response, acking on write success and
rejecting with requeue on write failure; a cache miss or cache store error
falls through to the upstream call; on caller success the COMPLETED write is
acked or requeued the same way; on caller failure a FAILED write with the
empty response is issued and the delivery is acked whether or not that write
succeeds. -/
def process_message (parsed : Option Json) (procOk : Bool)
    (cache : Except Unit (Option LLMResponse))
    (llm : Except String LLMResponse) (termOk : Bool) : List ProcAction :=
  match parsed with
  | none => [ProcAction.reject false]
  | some _ =>
    let procWrite := ProcAction.storeWrite TaskStatus.processing emptyResponse procOk
    if procOk then
      match cache with
      | Except.ok (some cachedResp) =>
          let w := ProcAction.storeWrite TaskStatus.completed cachedResp termOk
          if termOk then [procWrite, w, ProcAction.ack]
          else [procWrite, w, ProcAction.reject true]
      | _ =>
        match llm with
        | Except.ok resp =>
            let w := ProcAction.storeWrite TaskStatus.completed resp termOk
            if termOk then [procWrite, w, ProcAction.ack]
            else [procWrite, w, ProcAction.reject true]
        | Except.error _ =>
            [procWrite, ProcAction.storeWrite TaskStatus.failed emptyResponse termOk,
             ProcAction.ack]
    else [procWrite]

/-- Dispatcher admission state from run_consumer in main.rs: permits still
available in the semaphore and per-message tasks spawned but not yet
completed. -/
structure DispatcherState where
  available : Nat
  inflight : Nat
deriving DecidableEq, Repr

/-- Steps of the dispatcher loop: a spawn first acquires a permit (possible
only when one is available) and starts one task; a task completion drops its
permit back. -/
inductive DispatcherStep : DispatcherState → DispatcherState → Prop where
  | spawn (a i : Nat) (h : 0 < a) :
      DispatcherStep { available := a, inflight := i }
        { available := a - 1, inflight := i + 1 }
  | complete (a i : Nat) (h : 0 < i) :
      DispatcherStep { available := a, inflight := i }
        { available := a + 1, inflight := i - 1 }

/-- States reachable from the initial state, in which the semaphore holds cap
permits and no task is in flight. -/
inductive DispatcherReachable (cap : Nat) : DispatcherState → Prop where
  | init : DispatcherReachable cap { available := cap, inflight := 0 }
  | step {s t : DispatcherState} :
      DispatcherReachable cap s → DispatcherStep s t → DispatcherReachable cap t

/-- Sleep (in milliseconds) the retry loop performs after a retried attempt
whose outcome is the given one, when the backoff delay for that attempt index
is backoffK. -/
def AttemptOutcome.sleepHint (backoffK : Nat) : AttemptOutcome → Nat
  | .transient _ => backoffK
  | .retryAfter _ d => max backoffK (d * 1000)
  | _ => 0

/-- An endpoint that answers HTTP 500 with body oops on every attempt. -/
def alwaysServerError : Nat → HttpResult :=
  fun _ => HttpResult.response 500 [] "oops" none

/-- A completed row whose stored result holds both a completion string and a
completions subtree, with distinct contents, to separate the two projections. -/
def c3Row : EventRow :=
  { message_id := "m1", status := "COMPLETED",
    body := Json.obj [("q", Json.num 1)], body_hash := "h1",
    result := Json.obj [("completion", Json.str "hello"),
                        ("completions", Json.obj [("x", Json.num 1)])],
    started_at := 0, completed_at := 0, duration := 0,
    prompt_tokens := 0, completion_tokens := 0, total_tokens := 0, cached := false }

/-- A row sitting in PROCESSING with no terminal fields set. -/
def c4Row : EventRow :=
  { message_id := "m1", status := "PROCESSING", body := Json.null, body_hash := "h1",
    result := Json.null, started_at := 5, completed_at := 0, duration := 0,
    prompt_tokens := 0, completion_tokens := 0, total_tokens := 0, cached := false }

/-- A sample adapter-level response. -/
def c4Resp : LLMResponseDb :=
  { content := "out",
    usage := { prompt_tokens := 1, completion_tokens := 2, total_tokens := 3 },
    cached := true }

/-- Headers carrying a parseable Retry-After of 7 seconds. -/
def c6Headers : List (String × String) := [("Retry-After", "7")]

/-- First attempt rate limited with a Retry-After header, second succeeds. -/
def c6WithHeader : Nat → HttpResult := fun k =>
  if k = 0 then HttpResult.response 429 c6Headers "" none
  else HttpResult.response 200 [] "" (some (Json.obj []))

/-- First attempt rate limited without any header, second succeeds. -/
def c6NoHeader : Nat → HttpResult := fun k =>
  if k = 0 then HttpResult.response 429 [] "" none
  else HttpResult.response 200 [] "" (some (Json.obj []))

/-- A body-level 429 error whose reset instant lies 4000 ms after the sample
current time of 1000 ms. -/
def c7Err : Json :=
  Json.obj [("code", Json.num 429),
            ("metadata", Json.obj [("headers",
              Json.obj [("X-RateLimit-Reset", Json.str "5000")])])]

/-- A body-level 429 error whose reset instant lies only 500 ms after the
sample current time of 1000 ms. -/
def c7SmallErr : Json :=
  Json.obj [("code", Json.num 429),
            ("metadata", Json.obj [("headers",
              Json.obj [("X-RateLimit-Reset", Json.str "1500")])])]

/-- Helper: mapping a row update and then a projection equals mapping the
composed per-row projection. -/
theorem map_proj_comm {α : Type} (store : List EventRow) (f : EventRow → EventRow)
    (proj : EventRow → α) (g : EventRow → α) (h : ∀ r, proj (f r) = g r) :
    (store.map f).map proj = store.map g := by
  induction store with
  | nil => rfl
  | cons r rs ih => simp [h r, ih]

/-- Helper: the PROCESSING branch of update_event_status is a per-row map
that touches only started_at and status. -/
theorem update_processing_map (store : List EventRow) (id : String)
    (resp : LLMResponseDb) (t now : Int) :
    update_event_status store id TaskStatus.processing resp t now
      = store.map (fun r =>
          if r.message_id == id then
            { r with started_at := t, status := "PROCESSING" }
          else r) := rfl

/-- Helper: the COMPLETED and FAILED branches of update_event_status are a
per-row map writing the terminal fields. -/
theorem update_terminal_map (store : List EventRow) (id : String)
    (resp : LLMResponseDb) (t now : Int) (status : TaskStatus)
    (h : status = TaskStatus.completed ∨ status = TaskStatus.failed) :
    update_event_status store id status resp t now
      = store.map (fun r =>
          if r.message_id == id then
            { r with
                completed_at := now,
                status := status.as_str,
                duration := now - t,
                result := Json.obj [("completion", Json.str resp.content)],
                prompt_tokens := (resp.usage.prompt_tokens : Int),
                completion_tokens := (resp.usage.completion_tokens : Int),
                total_tokens := (resp.usage.total_tokens : Int),
                cached := resp.cached }
          else r) := by
  rcases h with h | h <;> subst h <;> rfl

/-- C10: calling update_event_status with status PENDING performs no store
write at all, and with status PROCESSING writes only the started_at and
status fields of the addressed record, leaving completed_at, duration,
result, token counts and cached unchanged on every row. -/
theorem c10_pending_processing_frame (store : List EventRow) (id : String)
    (resp : LLMResponseDb) (t now : Int) :
    update_event_status store id TaskStatus.pending resp t now = store
    ∧ (update_event_status store id TaskStatus.processing resp t now).map
        EventRow.started_at
        = store.map (fun r => if r.message_id == id then t else r.started_at)
    ∧ (update_event_status store id TaskStatus.processing resp t now).map
        EventRow.status
        = store.map (fun r => if r.message_id == id then "PROCESSING" else r.status)
    ∧ (update_event_status store id TaskStatus.processing resp t now).map
        EventRow.completed_at = store.map EventRow.completed_at
    ∧ (update_event_status store id TaskStatus.processing resp t now).map
        EventRow.duration = store.map EventRow.duration
    ∧ (update_event_status store id TaskStatus.processing resp t now).map
        EventRow.result = store.map EventRow.result
    ∧ (update_event_status store id TaskStatus.processing resp t now).map
        EventRow.prompt_tokens = store.map EventRow.prompt_tokens
    ∧ (update_event_status store id TaskStatus.processing resp t now).map
        EventRow.completion_tokens = store.map EventRow.completion_tokens
    ∧ (update_event_status store id TaskStatus.processing resp t now).map
        EventRow.total_tokens = store.map EventRow.total_tokens
    ∧ (update_event_status store id TaskStatus.processing resp t now).map
        EventRow.cached = store.map EventRow.cached := by
  refine ⟨rfl, ?_, ?_, ?_, ?_, ?_, ?_, ?_, ?_, ?_⟩ <;>
    (rw [update_processing_map]
     exact map_proj_comm _ _ _ _
       (fun r => by cases hr : r.message_id == id <;> simp [hr]))

/-- C4 counterexample: the claim says that whatever status is passed,
update_event_status merges status, completed_at and the other result fields
onto the addressed record. Passing PENDING leaves the store untouched: the
status column stays PROCESSING instead of becoming PENDING and completed_at
stays unset instead of becoming now. -/
theorem c4_pending_counterexample :
    update_event_status [c4Row] "m1" TaskStatus.pending c4Resp 5 9 = [c4Row]
    ∧ (update_event_status [c4Row] "m1" TaskStatus.pending c4Resp 5 9).map
        EventRow.status = ["PROCESSING"]
    ∧ ("PROCESSING" : String) ≠ "PENDING"
    ∧ (update_event_status [c4Row] "m1" TaskStatus.pending c4Resp 5 9).map
        EventRow.completed_at = [0]
    ∧ (0 : Int) ≠ 9 :=
  ⟨rfl, rfl, by decide, rfl, by decide⟩

/-- C4 as amended: update_event_status branches on the status argument rather
than merging the same field set for every status. For COMPLETED and FAILED it
writes, on the rows matching message_id, the status spelling, completed_at =
now, duration = now minus started_at, a result object holding the completion
string, the three token counters and the cached flag, and leaves started_at
and every other column unchanged; for PROCESSING it writes only started_at
and status; for PENDING it writes nothing (the attempt count is never
persisted by this adapter). -/
theorem c4_terminal_write_fields (store : List EventRow) (id : String)
    (resp : LLMResponseDb) (t now : Int) (status : TaskStatus)
    (h : status = TaskStatus.completed ∨ status = TaskStatus.failed) :
    (update_event_status store id status resp t now).map EventRow.status
        = store.map (fun r => if r.message_id == id then status.as_str else r.status)
    ∧ (update_event_status store id status resp t now).map EventRow.completed_at
        = store.map (fun r => if r.message_id == id then now else r.completed_at)
    ∧ (update_event_status store id status resp t now).map EventRow.duration
        = store.map (fun r => if r.message_id == id then now - t else r.duration)
    ∧ (update_event_status store id status resp t now).map EventRow.result
        = store.map (fun r =>
            if r.message_id == id then
              Json.obj [("completion", Json.str resp.content)]
            else r.result)
    ∧ (update_event_status store id status resp t now).map EventRow.prompt_tokens
        = store.map (fun r =>
            if r.message_id == id then (resp.usage.prompt_tokens : Int)
            else r.prompt_tokens)
    ∧ (update_event_status store id status resp t now).map EventRow.completion_tokens
        = store.map (fun r =>
            if r.message_id == id then (resp.usage.completion_tokens : Int)
            else r.completion_tokens)
    ∧ (update_event_status store id status resp t now).map EventRow.total_tokens
        = store.map (fun r =>
            if r.message_id == id then (resp.usage.total_tokens : Int)
            else r.total_tokens)
    ∧ (update_event_status store id status resp t now).map EventRow.cached
        = store.map (fun r => if r.message_id == id then resp.cached else r.cached)
    ∧ (update_event_status store id status resp t now).map EventRow.started_at
        = store.map EventRow.started_at
    ∧ update_event_status store id TaskStatus.pending resp t now = store := by
  refine ⟨?_, ?_, ?_, ?_, ?_, ?_, ?_, ?_, ?_, rfl⟩ <;>
    (rw [update_terminal_map store id resp t now status h]
     exact map_proj_comm _ _ _ _
       (fun r => by cases hr : r.message_id == id <;> simp [hr]))

/-- C4 witness: the amended theorem applied to a one-row store with a
COMPLETED terminal write. -/
theorem c4_terminal_write_fields_witness :
    (update_event_status [c4Row] "m1" TaskStatus.completed c4Resp 5 9).map
        EventRow.status = ["COMPLETED"]
    ∧ (update_event_status [c4Row] "m1" TaskStatus.completed c4Resp 5 9).map
        EventRow.started_at = [5] := by
  have h := c4_terminal_write_fields [c4Row] "m1" c4Resp 5 9 TaskStatus.completed
    (Or.inl rfl)
  refine ⟨?_, ?_⟩
  · rw [h.1]; rfl
  · rw [h.2.2.2.2.2.2.2.2.1]; rfl

/-- C5: a delivery whose body fails to parse as JSON is rejected without
requeue, and the processor performs no store write and no other settlement. -/
theorem c5_malformed_reject_no_write (procOk : Bool)
    (cache : Except Unit (Option LLMResponse))
    (llm : Except String LLMResponse) (termOk : Bool) :
    process_message none procOk cache llm termOk = [ProcAction.reject false]
    ∧ ∀ s resp ok,
        ProcAction.storeWrite s resp ok ∉ process_message none procOk cache llm termOk := by
  refine ⟨rfl, ?_⟩
  intro s resp ok
  show ProcAction.storeWrite s resp ok ∉ [ProcAction.reject false]
  simp

/-- C5 witness: the theorem applied to a concrete environment. -/
theorem c5_malformed_reject_no_write_witness :
    process_message none true (Except.ok none) (Except.error "e") true
      = [ProcAction.reject false] :=
  (c5_malformed_reject_no_write true (Except.ok none) (Except.error "e") true).1

/-- C2 counterexample: the claim says the terminal FAILED record carries the
attempt count reported by the caller and the error string in the result. On a
run whose caller exhausts three attempts against an always-500 endpoint, the
processor stores the freshly built empty response: attempt 0 rather than any
caller-reported count, and a null result that does not contain the error
string of the caller outcome. -/
theorem c2_failed_write_counterexample :
    (call_llm 3 (fun _ => 1) 0 alwaysServerError).requests = 3
    ∧ (call_llm 3 (fun _ => 1) 0 alwaysServerError).outcome
        = Except.error "Server error (500): oops"
    ∧ process_message (some (Json.obj [])) true (Except.ok none)
        (call_llm 3 (fun _ => 1) 0 alwaysServerError).outcome true
      = [ProcAction.storeWrite TaskStatus.processing emptyResponse true,
         ProcAction.storeWrite TaskStatus.failed emptyResponse true,
         ProcAction.ack]
    ∧ emptyResponse.attempt = 0
    ∧ emptyResponse.completions = Json.null
    ∧ Json.null ≠ Json.str "Server error (500): oops" :=
  ⟨rfl, rfl, rfl, rfl, rfl, fun h => Json.noConfusion h⟩

/-- C2 as amended: for every delivery that decodes, marks PROCESSING and
misses the cache (or hits a cache store error), and whose upstream call ends
in a permanent failure, the processor writes a terminal FAILED record with
the empty response (null result, cached false, attempt 0; the caller attempt
count and error string are not recorded) and issues a positive ack whether or
not that terminal write succeeds. -/
theorem c2_failed_write_null_and_ack (d : Json) (e : String) (termOk : Bool)
    (cache : Except Unit (Option LLMResponse))
    (hc : cache = Except.ok none ∨ cache = Except.error ()) :
    process_message (some d) true cache (Except.error e) termOk
      = [ProcAction.storeWrite TaskStatus.processing emptyResponse true,
         ProcAction.storeWrite TaskStatus.failed emptyResponse termOk,
         ProcAction.ack] := by
  rcases hc with h | h <;> subst h <;> rfl

/-- C2 witness: a concrete failing run whose terminal write itself fails and
is still acked. -/
theorem c2_failed_write_null_and_ack_witness :
    process_message (some (Json.obj [])) true (Except.ok none)
        (Except.error "boom") false
      = [ProcAction.storeWrite TaskStatus.processing emptyResponse true,
         ProcAction.storeWrite TaskStatus.failed emptyResponse false,
         ProcAction.ack] :=
  c2_failed_write_null_and_ack (Json.obj []) "boom" false (Except.ok none)
    (Or.inl rfl)

/-- C3 counterexample: the claim says get_cached_completion projects only the
completions subtree and synthesizes a response with cached true and attempt 0
for a matching body_hash. The adapter under src/ instead keys on the stored
request body and projects the completion string: on a store whose one
COMPLETED row holds both fields, the adapter returns the string hello with
zeroed usage (its response carries no attempt field at all), while the
lookup worded as in the spec returns the completions subtree, and the two
payloads differ. -/
theorem c3_projection_counterexample :
    get_cached_completion [c3Row] (Json.obj [("q", Json.num 1)])
      = some { content := "hello",
               usage := { prompt_tokens := 0, completion_tokens := 0, total_tokens := 0 },
               cached := true }
    ∧ get_cached_completion_spec [c3Row] "h1"
      = some { completions := Json.obj [("x", Json.num 1)],
               cached := true, attempt := 0 }
    ∧ Json.str "hello" ≠ Json.obj [("x", Json.num 1)] :=
  ⟨rfl, rfl, fun h => Json.noConfusion h⟩

/-- C3 as amended: get_cached_completion keys on the stored request body (not
a body_hash string): it returns the empty option exactly when no row has
status COMPLETED and an equal body column, and on a hit it returns a response
with cached true and zeroed usage whose content is the completion string
projected (with empty-string default) from the result of some matching row. -/
theorem c3_cache_lookup (store : List EventRow) (body : Json) :
    (get_cached_completion store body = none ↔
      ∀ r ∈ store, ¬(r.status = "COMPLETED" ∧ Json.beq r.body body = true))
    ∧ ∀ resp, get_cached_completion store body = some resp →
        resp.cached = true
        ∧ resp.usage = { prompt_tokens := 0, completion_tokens := 0, total_tokens := 0 }
        ∧ ∃ r, r ∈ store ∧ r.status = "COMPLETED" ∧ Json.beq r.body body = true
            ∧ resp.content = (((r.result).getField "completion").bind Json.asStr).getD "" := by
  cases h : store.find? (fun r => r.status == "COMPLETED" && Json.beq r.body body) with
  | none =>
    have hall := List.find?_eq_none.mp h
    constructor
    · simp only [get_cached_completion, h, true_iff]
      intro r hr hcontra
      have := hall r hr
      rw [Bool.and_eq_true, beq_iff_eq] at this
      exact this ⟨hcontra.1, hcontra.2⟩
    · intro resp hresp
      simp [get_cached_completion, h] at hresp
  | some row =>
    have hp := List.find?_some h
    have hmem := List.mem_of_find?_eq_some h
    rw [Bool.and_eq_true, beq_iff_eq] at hp
    constructor
    · simp only [get_cached_completion, h]
      constructor
      · intro hcontra; exact absurd hcontra (by simp)
      · intro hno; exact absurd ⟨hp.1, hp.2⟩ (hno row hmem)
    · intro resp hresp
      simp only [get_cached_completion, h, Option.some.injEq] at hresp
      subst hresp
      exact ⟨rfl, rfl, row, hmem, hp.1, hp.2, rfl⟩

/-- C3 witness: the amended theorem applied to the one-row store. -/
theorem c3_cache_lookup_witness :
    get_cached_completion [c3Row] (Json.obj [("q", Json.num 1)])
      = some { content := "hello",
               usage := { prompt_tokens := 0, completion_tokens := 0, total_tokens := 0 },
               cached := true }
    ∧ ({ content := "hello",
         usage := { prompt_tokens := 0, completion_tokens := 0, total_tokens := 0 },
         cached := true } : LLMResponseDb).cached = true :=
  ⟨rfl, ((c3_cache_lookup [c3Row] (Json.obj [("q", Json.num 1)])).2 _ rfl).1⟩

/-- Helper: when every attempt classifies as transient, the retry loop spends
its whole budget and ends in an error. -/
theorem retryGo_all_transient (backoff : Nat → Nat) (act : Nat → AttemptOutcome)
    (h : ∀ k, ∃ e, act k = AttemptOutcome.transient e) :
    ∀ fuel k, 0 < fuel →
      (retryGo backoff act k fuel).requests = fuel
      ∧ ∃ e, (retryGo backoff act k fuel).outcome = Except.error e := by
  intro fuel
  induction fuel with
  | zero => intro k h0; omega
  | succ f ih =>
    intro k _
    obtain ⟨e, he⟩ := h k
    by_cases hf : f = 0
    · subst hf
      refine ⟨?_, e, ?_⟩ <;> simp [retryGo, he]
    · obtain ⟨ih1, e2, ih2⟩ := ih (k + 1) (Nat.pos_of_ne_zero hf)
      refine ⟨?_, e2, ?_⟩ <;> simp [retryGo, he, hf, ih1, ih2]

/-- C1: against an endpoint that answers HTTP 500 on every attempt, a call
with a budget of N attempts makes exactly N requests and ends in a terminal
error (the loop never stops early on a transient classification; the last
transient failure surfaces as the permanent result). -/
theorem c1_always_500_exhausts_budget (N : Nat) (hN : 0 < N)
    (backoff : Nat → Nat) (now : Nat) (results : Nat → HttpResult)
    (h500 : ∀ k, ∃ hs t j, results k = HttpResult.response 500 hs t j) :
    (call_llm N backoff now results).requests = N
    ∧ ∃ e, (call_llm N backoff now results).outcome = Except.error e := by
  refine retryGo_all_transient backoff _ ?_ N 0 hN
  intro k
  obtain ⟨hs, t, j, hk⟩ := h500 k
  exact ⟨"Server error (" ++ toString 500 ++ "): " ++ t, by rw [hk]; rfl⟩

/-- C1 witness: a budget of two attempts against the always-500 endpoint. -/
theorem c1_always_500_exhausts_budget_witness :
    (call_llm 2 (fun _ => 1) 0 alwaysServerError).requests = 2
    ∧ ∃ e, (call_llm 2 (fun _ => 1) 0 alwaysServerError).outcome = Except.error e :=
  c1_always_500_exhausts_budget 2 (by decide) (fun _ => 1) 0 alwaysServerError
    (fun _ => ⟨[], "oops", none, rfl⟩)

/-- C8: when the first attempt receives HTTP 401 the caller stops at once
with a permanent authentication error: one request, no sleep. -/
theorem c8_unauthorized_single_request (N : Nat) (hN : 0 < N)
    (backoff : Nat → Nat) (now : Nat) (results : Nat → HttpResult)
    (hs : List (String × String)) (t : String) (j : Option Json)
    (h401 : results 0 = HttpResult.response 401 hs t j) :
    (call_llm N backoff now results).requests = 1
    ∧ (call_llm N backoff now results).sleeps = []
    ∧ (call_llm N backoff now results).outcome
        = Except.error ("Authentication error: " ++ t) := by
  obtain ⟨m, rfl⟩ : ∃ m, N = m + 1 := ⟨N - 1, by omega⟩
  simp [call_llm, retryLoop, retryGo, h401, call_llm_attempt]

/-- C8 witness: a 401 on the first of three attempts. -/
theorem c8_unauthorized_single_request_witness :
    (call_llm 3 (fun _ => 1) 0
        (fun _ => HttpResult.response 401 [] "denied" none)).requests = 1
    ∧ (call_llm 3 (fun _ => 1) 0
        (fun _ => HttpResult.response 401 [] "denied" none)).sleeps = []
    ∧ (call_llm 3 (fun _ => 1) 0
        (fun _ => HttpResult.response 401 [] "denied" none)).outcome
      = Except.error ("Authentication error: " ++ "denied") :=
  c8_unauthorized_single_request 3 (by decide) (fun _ => 1) 0
    (fun _ => HttpResult.response 401 [] "denied" none) [] "denied" none rfl

/-- Helper: if the loop keeps retrying through attempt index i (every attempt
up to i classifies as retryable) and budget remains for at least one more
attempt, then the i-th sleep is the sleep hint of the i-th outcome. -/
theorem retryGo_sleep_at (backoff : Nat → Nat) (act : Nat → AttemptOutcome) :
    ∀ (i k0 fuel : Nat),
      (∀ j, j ≤ i → (act (k0 + j)).retryable = true) →
      i + 1 < fuel →
      (retryGo backoff act k0 fuel).sleeps[i]?
        = some ((act (k0 + i)).sleepHint (backoff (k0 + i))) := by
  intro i
  induction i with
  | zero =>
    intro k0 fuel hr hf
    obtain ⟨f, rfl⟩ : ∃ f, fuel = f + 1 := ⟨fuel - 1, by omega⟩
    have hf0 : f ≠ 0 := by omega
    have h0 := hr 0 (Nat.le_refl 0)
    rw [Nat.add_zero] at h0
    cases hact : act k0 <;> rw [hact] at h0 <;>
      simp [AttemptOutcome.retryable] at h0 <;>
      simp [retryGo, hact, hf0, AttemptOutcome.sleepHint]
  | succ i ih =>
    intro k0 fuel hr hf
    obtain ⟨f, rfl⟩ : ∃ f, fuel = f + 1 := ⟨fuel - 1, by omega⟩
    have hf0 : f ≠ 0 := by omega
    have h0 := hr 0 (Nat.zero_le _)
    rw [Nat.add_zero] at h0
    have hrest : (retryGo backoff act (k0 + 1) f).sleeps[i]?
        = some ((act (k0 + 1 + i)).sleepHint (backoff (k0 + 1 + i))) := by
      refine ih (k0 + 1) f (fun j hj => ?_) (by omega)
      have := hr (j + 1) (Nat.succ_le_succ hj)
      rwa [show k0 + (j + 1) = k0 + 1 + j by omega] at this
    rw [show k0 + (i + 1) = k0 + 1 + i by omega]
    cases hact : act k0 <;> rw [hact] at h0 <;>
      simp [AttemptOutcome.retryable] at h0 <;>
      simp [retryGo, hact, hf0, hrest]

/-- C6 as amended: when attempt k (with budget remaining and every earlier
attempt retryable) receives HTTP 429, the sleep before the next attempt is
the maximum of the backoff delay and one thousand times the Retry-After value
in seconds, where that value is the parsed header when present and parseable
and 2 otherwise; in particular, with a parseable Retry-After of S the sleep
is at least S seconds. The claim as stated errs only in the absent-header
case: the code supplies the 2-second default rather than the bare backoff. -/
theorem c6_http_429_sleep (N k : Nat) (backoff : Nat → Nat) (now : Nat)
    (results : Nat → HttpResult) (hs : List (String × String)) (t : String)
    (j : Option Json)
    (hres : results k = HttpResult.response 429 hs t j)
    (hretry : ∀ i, i ≤ k → (call_llm_attempt (results i) i now).retryable = true)
    (hk : k + 1 < N) :
    (call_llm N backoff now results).sleeps[k]?
      = some (max (backoff k) (retryAfterSecs hs * 1000))
    ∧ (∀ S, (hs.find? (fun p => p.1 == "Retry-After")).bind (fun p => parseNat p.2)
          = some S →
        retryAfterSecs hs = S ∧ S * 1000 ≤ max (backoff k) (retryAfterSecs hs * 1000))
    ∧ ((hs.find? (fun p => p.1 == "Retry-After")).bind (fun p => parseNat p.2) = none →
        retryAfterSecs hs = 2) := by
  refine ⟨?_, ?_, ?_⟩
  · have h := retryGo_sleep_at backoff
      (fun i => call_llm_attempt (results i) i now) k 0 N
      (fun j hj => by simpa using hretry j hj) (by omega)
    rw [Nat.zero_add] at h
    have hcall : (call_llm N backoff now results).sleeps
        = (retryGo backoff (fun i => call_llm_attempt (results i) i now) 0 N).sleeps := rfl
    rw [hcall, h]
    simp only [hres]
    rfl
  · intro S hS
    have : retryAfterSecs hs = S := by simp [retryAfterSecs, hS]
    exact ⟨this, by rw [this]; exact Nat.le_max_right _ _⟩
  · intro hnone
    simp [retryAfterSecs, hnone]

/-- C6 witness: attempt 0 rate limited with Retry-After 7, so the sleep is
the maximum of the 1 ms backoff and 7000 ms, which is at least 7 seconds. -/
theorem c6_http_429_sleep_witness :
    (call_llm 2 (fun _ => 1) 0 c6WithHeader).sleeps[0]?
      = some (max 1 (retryAfterSecs c6Headers * 1000))
    ∧ retryAfterSecs c6Headers = 7 :=
  ⟨(c6_http_429_sleep 2 0 (fun _ => 1) 0 c6WithHeader c6Headers "" none rfl
      (fun i hi => by
        have h0 : i = 0 := Nat.le_zero.mp hi
        subst h0; rfl)
      (by decide)).1,
   rfl⟩

/-- C6 counterexample: the claim says an absent Retry-After header leaves the
delay at the bare backoff. With a backoff of 1 ms on attempt 0 and a 429
without headers, the loop sleeps 2000 ms, not 1 ms. -/
theorem c6_missing_header_counterexample :
    (call_llm 2 (fun _ => 1) 0 c6NoHeader).sleeps = [2000]
    ∧ (2000 : Nat) ≠ 1 :=
  ⟨rfl, by decide⟩

/-- C7 counterexample: the claim gives the delay a floor of 2 seconds and a
round-up. With the reset instant 500 ms after now, the code computes
500 / 1000 + 1 = 1 second, below the claimed 2-second floor. -/
theorem c7_small_reset_counterexample :
    rateLimitDelaySecs c7SmallErr 1000 = 1
    ∧ call_llm_attempt
        (HttpResult.response 200 [] "" (some (Json.obj [("error", c7SmallErr)]))) 0 1000
      = AttemptOutcome.retryAfter "Rate limit exceeded: Rate limit exceeded" 1
    ∧ (1 : Nat) < 2 :=
  ⟨rfl, rfl, by decide⟩

/-- C7 as amended: a parsed 2xx body whose embedded error object carries
numeric code 429 classifies as a retryable rate limit, and the delay in
seconds is the reset instant (unix milliseconds from
error.metadata.headers.X-RateLimit-Reset) minus now, integer-divided by 1000,
plus one, when the reset parses and lies in the future; otherwise 2 (also
when the header is absent or unparseable). No 2-second floor applies to the
future-reset branch. -/
theorem c7_body_429_delay (k now : Nat) (hs : List (String × String))
    (t : String) (j err : Json)
    (herr : jsonError j = some err)
    (hcode : (err.getField "code").bind Json.asNat = some 429) :
    call_llm_attempt (HttpResult.response 200 hs t (some j)) k now
      = AttemptOutcome.retryAfter
          ("Rate limit exceeded: " ++ errMessage err "Rate limit exceeded")
          (rateLimitDelaySecs err now)
    ∧ (∀ reset, rateLimitReset err = some reset →
        rateLimitDelaySecs err now
          = if now < reset then (reset - now) / 1000 + 1 else 2)
    ∧ (rateLimitReset err = none → rateLimitDelaySecs err now = 2)
    ∧ (AttemptOutcome.retryAfter
          ("Rate limit exceeded: " ++ errMessage err "Rate limit exceeded")
          (rateLimitDelaySecs err now)).retryable = true := by
  refine ⟨?_, ?_, ?_, rfl⟩
  · simp [call_llm_attempt, herr, hcode]
  · intro reset hr
    simp [rateLimitDelaySecs, hr]
  · intro hr
    simp [rateLimitDelaySecs, hr]

/-- C7 witness: reset 4000 ms in the future yields a 5-second delay. -/
theorem c7_body_429_delay_witness :
    call_llm_attempt
        (HttpResult.response 200 [] "" (some (Json.obj [("error", c7Err)]))) 0 1000
      = AttemptOutcome.retryAfter
          ("Rate limit exceeded: " ++ errMessage c7Err "Rate limit exceeded")
          (rateLimitDelaySecs c7Err 1000)
    ∧ rateLimitDelaySecs c7Err 1000 = 5 :=
  ⟨(c7_body_429_delay 0 1000 [] "" (Json.obj [("error", c7Err)]) c7Err rfl rfl).1,
   rfl⟩

/-- Helper: along every reachable dispatcher state, available permits plus
in-flight tasks equal the semaphore capacity. -/
theorem dispatcher_sum_invariant (cap : Nat) :
    ∀ s, DispatcherReachable cap s → s.available + s.inflight = cap := by
  intro s h
  induction h with
  | init => simp
  | step _ hstep ih =>
    cases hstep with
    | spawn a i ha => simp at ih ⊢; omega
    | complete a i hi => simp at ih ⊢; omega

/-- C9: in the dispatcher admission protocol (acquire a permit from a
semaphore of capacity cap before each spawn, release it when the task
completes), the number of in-flight per-message tasks never exceeds cap in
any reachable state. -/
theorem c9_inflight_bounded (cap : Nat) (s : DispatcherState)
    (h : DispatcherReachable cap s) : s.inflight ≤ cap := by
  have := dispatcher_sum_invariant cap s h
  omega

/-- C9 witness: with capacity 1, the state after one spawn has one task in
flight, within the bound. -/
theorem c9_inflight_bounded_witness :
    ({ available := 0, inflight := 1 } : DispatcherState).inflight ≤ 1 :=
  c9_inflight_bounded 1 { available := 0, inflight := 1 }
    (DispatcherReachable.step DispatcherReachable.init
      (DispatcherStep.spawn 1 0 (by decide)))
